import Mathlib

/-!
Shallow embedding of the PriceLens two-stage analysis pipeline
(`src/pricelens_pipeline.py`) and of its request layer (`src/api.py`),
together with theorems settling the specification's claims about them.

The generation backend (the framework's LLM call) is kept opaque, as the
specification prescribes: a run is parametrised by a `Backend` function and
produces both a result and the ordered list of observable events
(crew construction, one backend call per stage).
-/

namespace PriceLens

/-- Shape of the object returned by crew execution.  The source probes it
with `hasattr(result, 'raw')`, then `hasattr(result, 'content')`, then falls
back to `str(result)`; `raw` and `content` are `none` when the corresponding
attribute is absent, and `text` is the textual conversion `str(result)`. -/
structure RawResult where
  raw : Option String
  content : Option String
  text : String
deriving DecidableEq

/-- Result extraction performed by `run_pricelens_pipeline`
(src/pricelens_pipeline.py lines 348-354): `output = result.raw` when that
attribute exists, else `result.content` when that exists, else
`str(result)`.  It is a total function: the source never raises here and no
`NormalizationError` exists anywhere in the repository. -/
def extractOutput (r : RawResult) : String :=
  match r.raw with
  | some s => s
  | none =>
    match r.content with
    | some s => s
    | none => r.text

/-- The environment variables read by `build_pricelens_crew`
(src/pricelens_pipeline.py lines 26-44); `none` models an unset variable. -/
structure Env where
  OPENAI_API_KEY : Option String
  OPENAI_MODEL_NAME : Option String
  OPENAI_TEMPERATURE : Option String
deriving DecidableEq

/-- The configuration with which the crew is built: the credential, model
name and temperature come from the environment (src lines 30-44); the
remaining limits are the literal constants `max_tokens=4000` (line 43),
`max_iter=3` and `max_execution_time=300` on both agents (lines 75-76 and
191-192) and `max_rpm=10` on the crew (line 299).  `temperature` is kept as
the raw environment string: the source converts it with `float`, whose
floating-point semantics is not modelled; only the value's provenance
matters to the claims. -/
structure Config where
  api_key : String
  model_name : String
  temperature : String
  max_tokens : Nat
  max_iter : Nat
  max_execution_time : Nat
  max_rpm : Nat
deriving DecidableEq

/-- Configuration resolution performed by `build_pricelens_crew` on every
call (src/pricelens_pipeline.py lines 26-46): `OPENAI_API_KEY` must be set,
non-empty and different from the placeholder, else a `ValueError` is raised;
the model name and temperature fall back to their defaults when unset. -/
def resolveConfig (env : Env) : Except String Config :=
  match env.OPENAI_API_KEY with
  | none =>
    Except.error "OPENAI_API_KEY is required. Set it in your environment or a local .env file."
  | some k =>
    if k = "" ∨ k = "your_openai_api_key_here" then
      Except.error "OPENAI_API_KEY is required. Set it in your environment or a local .env file."
    else
      Except.ok
        { api_key := k
          model_name := env.OPENAI_MODEL_NAME.getD "gpt-4o-mini"
          temperature := env.OPENAI_TEMPERATURE.getD "0.2"
          max_tokens := 4000
          max_iter := 3
          max_execution_time := 300
          max_rpm := 10 }

/-- One segment of a parsed instruction template: literal text, or a named
substitution slot written `\x7bkey\x7d` in the template. -/
inductive Seg where
  | lit (s : String)
  | var (k : String)
deriving DecidableEq

/-- Single-pass template scanner: splits a character stream into literal
chunks and substitution slots.  The first argument tells whether we are
currently inside a slot; the second accumulates the current chunk in
reverse. -/
def parseAux : Bool → List Char → List Char → List Seg
  | false, acc, [] => if acc.isEmpty then [] else [Seg.lit ⟨acc.reverse⟩]
  | false, acc, c :: cs =>
    if c.toNat = 123 then
      if acc.isEmpty then parseAux true [] cs
      else Seg.lit ⟨acc.reverse⟩ :: parseAux true [] cs
    else parseAux false (c :: acc) cs
  | true, acc, [] => [Seg.var ⟨acc.reverse⟩]
  | true, acc, c :: cs =>
    if c.toNat = 125 then Seg.var ⟨acc.reverse⟩ :: parseAux false [] cs
    else parseAux true (c :: acc) cs

/-- Parse a task description template into its segments. -/
def parseTemplate (template : String) : List Seg :=
  parseAux false [] template.data

/-- The text `\x7bk\x7d` of a substitution slot for key `k`, as it occurs inside a
template. -/
def slotOf (k : String) : String :=
  ⟨Char.ofNat 123 :: (k.data ++ [Char.ofNat 125])⟩

/-- Tail-recursive character predicate checker, used to state piecewise facts
about the long template texts. -/
def allChk (p : Char → Bool) : List Char → Bool
  | [] => true
  | c :: cs => if p c then allChk p cs else false

/-- Re-assemble a parsed template, replacing every slot by the value the
lookup function gives for its key. -/
def renderTemplate (lookup : String → String) : List Seg → String
  | [] => ""
  | Seg.lit s :: rest => s ++ renderTemplate lookup rest
  | Seg.var k :: rest => lookup k ++ renderTemplate lookup rest

/-- Value of input key `k` during interpolation.  Every slot occurring in the
source's two templates is supplied by `run_pricelens_pipeline`, so the
default branch is never reached for them. -/
def inputValue (inputs : List (String × String)) (k : String) : String :=
  (inputs.lookup k).getD ""

/-- Composed (templated) instructions of a task: its description with every
named slot replaced by the corresponding kickoff input.  This models the
input interpolation `crew.kickoff(inputs=...)` performs on each task
description, which substitutes named slots with input values in a single
pass like Python `str.format`. -/
def interpolateInputs (template : String) (inputs : List (String × String)) : String :=
  renderTemplate (inputValue inputs) (parseTemplate template)

/-- Description of `analysis_task` (src/pricelens_pipeline.py lines 79-160),
after `dedent(...).strip()`: the Stage 1 instruction template.  It contains
no substitution slot at all (not a single brace occurs in it). -/
def analysis_description : String :=
  "Conduct a comprehensive analysis of the customer interview transcript provided.

Your analysis must include:

## 1. SIGNAL EXTRACTION

Extract and categorize all pricing-related signals:

**Competitive Intelligence:**
- Current alternatives/solutions the customer uses
- Prices paid for alternatives (exact amounts if mentioned)
- Satisfaction level with current solutions
- Switching costs and barriers mentioned

**Value Indicators:**
- Pain points and their intensity (rate 1-10)
- Value drivers and desired outcomes
- Time/money costs of current problems
- ROI expectations or mentions

**Price Sensitivity Signals:**
- Direct price mentions (\"expensive\", \"affordable\", \"worth it\", etc.)
- Budget constraints or mentions
- Decision-making authority indicators
- Urgency indicators

## 2. WILLINGNESS-TO-PAY (WTP) ANALYSIS

Based on the signals extracted, provide:

**WTP Estimation:**
- Primary WTP range (low-high) with confidence level
- Secondary WTP range if multiple segments identified
- Rationale for each range based on specific transcript evidence

**Customer Segmentation:**
- Identify distinct customer segments (if applicable)
- WTP by segment
- Segment characteristics and size indicators

**Product Classification:**
- Classify as \"Painkiller\" (mission-critical) or \"Vitamin\" (nice-to-have)
- Justify classification with evidence
- Impact on pricing power

**Confidence Assessment:**
- Rate confidence in WTP estimate (0-100%)
- List factors increasing confidence
- List factors decreasing confidence or creating uncertainty

## 3. MARKET DYNAMICS

Identify:
- Market positioning opportunities
- Competitive advantages mentioned
- Potential pricing objections
- Upsell/cross-sell opportunities

## OUTPUT FORMAT

Structure your analysis as clear, well-organized markdown with:
- Headers and subheaders
- Bullet points for key findings
- Specific quotes from transcript (in italics)
- Data points highlighted (prices, percentages, etc.)
- Clear confidence indicators

Be thorough, specific, and evidence-based. Every claim should be backed by 
something from the transcript."

/-- The part of the `strategy_task` description before its `product_type`
slot. -/
def strategySegA : String :=
  "Using the Market Analysis provided, create a comprehensive Pricing Strategy Report.

Consider the product type: "

/-- The part of the `strategy_task` description between its two slots. -/
def strategySegB : String :=
  "
Consider the business stage: "

/-- Part 1 of 4 of the `strategy_task` description after its `stage`
slot. -/
def strategySegC1 : String :=
  "

Your report must include:

## 1. PRICING RECOMMENDATION

**Launch Price:**
- Specific recommended price (or narrow range if uncertainty exists)
- Pricing model recommendation (subscription, one-time, usage-based, etc.)
- Pricing tier structure (if applicable)
- Rationale connecting price to WTP analysis and market signals

**Target Segment:**
- Primary target customer segment
- Secondary segments (if applicable)
- Segment prioritization rationale

**Pricing Strategy:**
- Penetration vs. skimming strategy recommendation
- Discount strategy (if applicable)
- Freemium"

/-- Part 2 of 4 of the `strategy_task` description after its `stage`
slot. -/
def strategySegC2 : String :=
  " vs. paid-only recommendation
- Justification based on stage and market conditions

## 2. RISK ASSESSMENT

**Confidence Score:**
- Overall confidence in pricing recommendation (0-100%)
- Breakdown by component (WTP confidence, market data quality, etc.)

**Key Risks:**
- Overpricing risks (what could go wrong if too high)
- Underpricing risks (what could go wrong if too low)
- Market risks (competitive response, market changes)
- Execution risks (ability to communicate value, sales process)

**Risk Mitigation:**
- Strategies to reduce each identified risk
- Early war"

/-- Part 3 of 4 of the `strategy_task` description after its `stage`
slot. -/
def strategySegC3 : String :=
  "ning indicators to monitor

## 3. VALIDATION ROADMAP

**Immediate Next Steps (Week 1-2):**
- Specific, actionable validation experiments
- Success metrics and thresholds
- Resource requirements

**Short-term Tests (Month 1-3):**
- Pricing page A/B tests
- Pre-order campaigns
- Landing page price tests
- Customer interview follow-ups

**Long-term Validation (Quarter 1-2):**
- Market testing approaches
- Iteration strategy
- Key metrics to track

## 4. IMPLEMENTATION GUIDANCE

**Go-to-Market Considerations:**
- Messaging recommendations for price communication
- Sales "

/-- Part 4 of 4 of the `strategy_task` description after its `stage`
slot. -/
def strategySegC4 : String :=
  "enablement needs
- Customer education requirements

**Success Metrics:**
- KPIs to track (conversion rate, ARPU, churn, etc.)
- Target benchmarks
- Review cadence

## OUTPUT FORMAT

Create a polished, executive-ready markdown report that:
- Starts with an executive summary
- Uses clear sections and formatting
- Includes specific numbers and recommendations
- Provides actionable next steps
- Is suitable for sharing with founders, investors, or pricing teams

Make it comprehensive yet scannable. Use formatting (bold, italics, lists) 
to make key information stand out."

/-- The part of the `strategy_task` description after its `stage` slot
(split into four consecutive pieces so that facts about it can be checked
piecewise). -/
def strategySegC : String :=
  strategySegC1 ++ (strategySegC2 ++ (strategySegC3 ++ strategySegC4))

/-- Description of `strategy_task` (src/pricelens_pipeline.py lines 195-290),
after `dedent(...).strip()`: the Stage 2 instruction template, written as the
concatenation of its literal parts around its only two substitution slots,
`product_type` and `stage`.  There is no slot for the Stage 1 output. -/
def strategy_description : String :=
  strategySegA ++ (slotOf "product_type" ++ (strategySegB ++ (slotOf "stage" ++ strategySegC)))

/-- Python's whitespace set for `str.strip()`: space, tab, newline, carriage
return, vertical tab and form feed. -/
def isPyWhitespace (c : Char) : Bool :=
  (c.toNat == 32) || (c.toNat == 9) || (c.toNat == 10) || (c.toNat == 13) ||
    (c.toNat == 11) || (c.toNat == 12)

/-- Remove leading and trailing whitespace from a character list. -/
def stripChars (l : List Char) : List Char :=
  ((l.dropWhile isPyWhitespace).reverse.dropWhile isPyWhitespace).reverse

/-- Python's `str.strip()` with no argument. -/
def strip (s : String) : String :=
  ⟨stripChars s.data⟩

/-- The kickoff inputs dictionary built by `run_pricelens_pipeline`
(src/pricelens_pipeline.py lines 339-343).  This is the PipelineContext the
stages receive: note that the transcript is stripped (`.strip()`) before
being placed into it. -/
def pipelineInputs (transcript_text product_type stage : String) :
    List (String × String) :=
  [("transcript", strip transcript_text),
   ("product_type", product_type),
   ("stage", stage)]

/-- Stage 1's composed instructions: the analysis description interpolated
against the kickoff inputs. -/
def stage1Prompt (transcript_text product_type stage : String) : String :=
  interpolateInputs analysis_description
    (pipelineInputs transcript_text product_type stage)

/-- Stage 2's composed (templated) instructions: the strategy description
interpolated against the kickoff inputs. -/
def stage2Instructions (transcript_text product_type stage : String) : String :=
  interpolateInputs strategy_description
    (pipelineInputs transcript_text product_type stage)

/-- Modelled from the spec: with `Process.sequential`
(src/pricelens_pipeline.py line 296) the framework hands the prior task's
output to the next task as appended context, so the full Stage 2 prompt is
its composed instructions followed by Stage 1's normalized output. -/
def stage2Prompt (transcript_text product_type stage stage1_output : String) :
    String :=
  stage2Instructions transcript_text product_type stage ++
    "\n\nThis is the context you are working with:\n" ++ stage1_output

/-- Observable effects of one pipeline run, in order: crew construction with
a resolved configuration, then one generation-backend call per stage. -/
inductive Event where
  | crewBuilt (cfg : Config)
  | stageCall (stage : Nat) (prompt : String)
deriving DecidableEq

/-- Errors surfaced by `run_pricelens_pipeline`: the transcript `ValueError`
(src line 328), the missing-credential `ValueError` (src lines 31-34), and
any exception raised during crew execution, which the `except` block
re-raises verbatim (src lines 359-361); the carried string is the
exception's message, preserved unchanged. -/
inductive PipelineError where
  | validation (msg : String)
  | configuration (msg : String)
  | stageFailure (msg : String)
deriving DecidableEq

/-- The opaque generation backend: given the stage index and the stage's
prompt, it returns the stage's raw result or fails with an exception
message. -/
def Backend : Type := Nat → String → Except String RawResult

/-- Everything one call to `run_pricelens_pipeline` produces: its ordered
event trace and its result (the report body, or the propagated error). -/
structure RunOutcome where
  events : List Event
  result : Except PipelineError String

/-- Modelled from the spec: `crew.kickoff(inputs=...)` with
`Process.sequential` and `tasks=[analysis_task, strategy_task]`
(src/pricelens_pipeline.py lines 292-300).  The tasks run strictly in
order: Stage 1 is called on its interpolated description; its raw result's
text is handed to Stage 2 as context; the crew returns the raw result of
the final task.  A stage exception aborts the run at that stage. -/
def kickoff (backend : Backend) (transcript_text product_type stage : String) :
    List Event × Except String RawResult :=
  match backend 1 (stage1Prompt transcript_text product_type stage) with
  | Except.error e =>
    ([Event.stageCall 1 (stage1Prompt transcript_text product_type stage)],
     Except.error e)
  | Except.ok r1 =>
    match backend 2 (stage2Prompt transcript_text product_type stage
        (extractOutput r1)) with
    | Except.error e =>
      ([Event.stageCall 1 (stage1Prompt transcript_text product_type stage),
        Event.stageCall 2 (stage2Prompt transcript_text product_type stage
          (extractOutput r1))],
       Except.error e)
    | Except.ok r2 =>
      ([Event.stageCall 1 (stage1Prompt transcript_text product_type stage),
        Event.stageCall 2 (stage2Prompt transcript_text product_type stage
          (extractOutput r1))],
       Except.ok r2)

/-- `run_pricelens_pipeline` (src/pricelens_pipeline.py lines 306-361):
validate the transcript, build the crew (resolving the configuration from
the environment), kick off the two stages, and extract the final output;
every exception propagates verbatim to the caller. -/
def run_pricelens_pipeline (env : Env) (backend : Backend)
    (transcript_text product_type stage : String) : RunOutcome :=
  if transcript_text = "" ∨ (strip transcript_text).length < 10 then
    { events := []
      result := Except.error (PipelineError.validation
        "Transcript must be at least 10 characters long") }
  else
    match resolveConfig env with
    | Except.error m =>
      { events := [], result := Except.error (PipelineError.configuration m) }
    | Except.ok cfg =>
      match kickoff backend transcript_text product_type stage with
      | (evs, Except.error m) =>
        { events := Event.crewBuilt cfg :: evs
          result := Except.error (PipelineError.stageFailure m) }
      | (evs, Except.ok r) =>
        { events := Event.crewBuilt cfg :: evs
          result := Except.ok (extractOutput r) }

/-- A parsed and validated `/analyze` request body (src/api.py lines
52-61).  Its `transcript` field holds what the field validator returned. -/
structure AnalysisRequest where
  transcript : String
  product_type : String
  stage : String
deriving DecidableEq

/-- `AnalysisRequest.validate_transcript` (src/api.py lines 57-61): rejects
a transcript whose stripped length is below 10, and otherwise returns the
stripped transcript as the field value. -/
def validate_transcript (v : String) : Except String String :=
  if (strip v).length < 10 then
    Except.error "Transcript must be at least 10 characters long"
  else Except.ok (strip v)

/-- Parsing of an `/analyze` body: pydantic first enforces the
`min_length=10` field constraint on the raw value (src/api.py line 53),
then runs the field validator. -/
def parseRequest (transcript product_type stage : String) :
    Except String AnalysisRequest :=
  if transcript.length < 10 then
    Except.error "ensure this value has at least 10 characters"
  else
    match validate_transcript transcript with
    | Except.error m => Except.error m
    | Except.ok v =>
      Except.ok { transcript := v, product_type := product_type, stage := stage }

/-- The `/analyze` response model (src/api.py lines 63-68), without the
wall-clock timestamp. -/
structure AnalysisResponse where
  result : String
  product_type : String
  stage : String
  transcript_length : Nat
deriving DecidableEq

/-- HTTP error classes produced by `analyze_transcript`. -/
inductive ApiError where
  | badRequest (detail : String)
  | internalError (detail : String)
deriving DecidableEq

/-- `analyze_transcript` (src/api.py lines 110-151): runs the pipeline on
the validated request; a `ValueError` (validation or configuration) maps to
HTTP 400, any other exception to HTTP 500; on success the response carries
the pipeline output and `len(request.transcript)` — the length of the
already-stripped field value. -/
def analyze_transcript (env : Env) (backend : Backend) (req : AnalysisRequest) :
    Except ApiError AnalysisResponse :=
  match (run_pricelens_pipeline env backend
      req.transcript req.product_type req.stage).result with
  | Except.error (PipelineError.validation m) => Except.error (ApiError.badRequest m)
  | Except.error (PipelineError.configuration m) => Except.error (ApiError.badRequest m)
  | Except.error (PipelineError.stageFailure m) =>
    Except.error (ApiError.internalError ("Analysis failed: " ++ m))
  | Except.ok out =>
    Except.ok { result := out
                product_type := req.product_type
                stage := req.stage
                transcript_length := req.transcript.length }


/-! ### Helper lemmas about the template machinery -/

theorem allChk_append (p : Char → Bool) (l₁ l₂ : List Char) :
    allChk p (l₁ ++ l₂) = (allChk p l₁ && allChk p l₂) := by
  induction l₁ with
  | nil => simp [allChk]
  | cons c cs ih =>
    simp only [List.cons_append, allChk]
    by_cases h : p c
    · simp [h, ih]
    · simp [h]

theorem allChk_mem (p : Char → Bool) (l : List Char) (h : allChk p l = true) :
    ∀ c ∈ l, p c = true := by
  induction l with
  | nil => intro c hc; cases hc
  | cons a as ih =>
    intro c hc
    simp only [allChk] at h
    by_cases hp : p a
    · rw [if_pos hp] at h
      rcases List.mem_cons.mp hc with rfl | hmem
      · exact hp
      · exact ih h c hmem
    · rw [if_neg hp] at h
      cases h

theorem parseAux_nil_lit (acc : List Char) :
    parseAux false acc [] = if acc.isEmpty then [] else [Seg.lit ⟨acc.reverse⟩] := rfl

theorem parseAux_cons_lit (acc : List Char) (c : Char) (cs : List Char) :
    parseAux false acc (c :: cs) =
      if c.toNat = 123 then
        if acc.isEmpty then parseAux true [] cs
        else Seg.lit ⟨acc.reverse⟩ :: parseAux true [] cs
      else parseAux false (c :: acc) cs := rfl

theorem parseAux_nil_key (acc : List Char) :
    parseAux true acc [] = [Seg.var ⟨acc.reverse⟩] := rfl

theorem parseAux_cons_key (acc : List Char) (c : Char) (cs : List Char) :
    parseAux true acc (c :: cs) =
      if c.toNat = 125 then Seg.var ⟨acc.reverse⟩ :: parseAux false [] cs
      else parseAux true (c :: acc) cs := rfl


theorem parseAux_lit_append (L rest acc : List Char)
    (h : allChk (fun c => c.toNat != 123) L = true) :
    parseAux false acc (L ++ rest) = parseAux false (L.reverse ++ acc) rest := by
  induction L generalizing acc with
  | nil => simp
  | cons c cs ih =>
    simp only [allChk] at h
    by_cases hc : (fun c => c.toNat != 123) c
    · rw [if_pos hc] at h
      have hc' : ¬ c.toNat = 123 := by simpa using hc
      rw [List.cons_append, parseAux_cons_lit, if_neg hc', ih _ h]
      simp
    · rw [if_neg hc] at h
      cases h

theorem parseAux_key_append (K rest acc : List Char)
    (h : allChk (fun c => c.toNat != 125) K = true) :
    parseAux true acc (K ++ rest) = parseAux true (K.reverse ++ acc) rest := by
  induction K generalizing acc with
  | nil => simp
  | cons c cs ih =>
    simp only [allChk] at h
    by_cases hc : (fun c => c.toNat != 125) c
    · rw [if_pos hc] at h
      have hc' : ¬ c.toNat = 125 := by simpa using hc
      rw [List.cons_append, parseAux_cons_key, if_neg hc', ih _ h]
      simp
    · rw [if_neg hc] at h
      cases h

theorem parseAux_slot (k : String) (rest acc : List Char)
    (hk : allChk (fun c => c.toNat != 125) k.data = true) :
    parseAux false acc ((slotOf k).data ++ rest) =
      (if acc.isEmpty then [] else [Seg.lit ⟨acc.reverse⟩]) ++
        (Seg.var k :: parseAux false [] rest) := by
  have hdata : (slotOf k).data = Char.ofNat 123 :: (k.data ++ [Char.ofNat 125]) := rfl
  rw [hdata, List.cons_append, parseAux_cons_lit, if_pos (by rfl : (Char.ofNat 123).toNat = 123)]
  rw [List.append_assoc, List.singleton_append]
  rw [parseAux_key_append _ _ _ hk, parseAux_cons_key,
    if_pos (by rfl : (Char.ofNat 125).toNat = 125)]
  have : (⟨(k.data.reverse ++ []).reverse⟩ : String) = k := by
    simp
  rw [this]
  by_cases hacc : acc.isEmpty
  · simp [hacc]
  · simp [hacc]


set_option maxRecDepth 8000

theorem isEmpty_reverse_false (l : List Char) (h : l ≠ []) :
    l.reverse.isEmpty = false := by
  cases hl : l.reverse with
  | nil => exact absurd (List.reverse_eq_nil_iff.mp hl) h
  | cons a as => rfl

theorem parseAux_slot_cons (k : String) (rest acc : List Char)
    (hk : allChk (fun c => c.toNat != 125) k.data = true)
    (hacc : acc.isEmpty = false) :
    parseAux false acc ((slotOf k).data ++ rest) =
      Seg.lit ⟨acc.reverse⟩ :: Seg.var k :: parseAux false [] rest := by
  rw [parseAux_slot _ _ _ hk, hacc]
  simp

/-- No brace occurs in the pieces of the strategy template. -/
theorem noBrace_segA : allChk (fun c => c.toNat != 123) strategySegA.data = true := by rfl

theorem noBrace_segB : allChk (fun c => c.toNat != 123) strategySegB.data = true := by rfl

theorem noBrace_segC1 : allChk (fun c => c.toNat != 123) strategySegC1.data = true := by rfl

theorem noBrace_segC2 : allChk (fun c => c.toNat != 123) strategySegC2.data = true := by rfl

theorem noBrace_segC3 : allChk (fun c => c.toNat != 123) strategySegC3.data = true := by rfl

theorem noBrace_segC4 : allChk (fun c => c.toNat != 123) strategySegC4.data = true := by rfl

theorem noBrace_segC : allChk (fun c => c.toNat != 123) strategySegC.data = true := by
  simp only [strategySegC, String.data_append, allChk_append]
  rw [noBrace_segC1, noBrace_segC2, noBrace_segC3, noBrace_segC4]
  rfl

theorem segA_ne_nil : strategySegA.data ≠ [] := by decide

theorem segB_ne_nil : strategySegB.data ≠ [] := by decide

theorem segC_ne_nil : strategySegC.data ≠ [] := by
  simp only [strategySegC, String.data_append]
  intro h
  rw [List.append_eq_nil] at h
  exact absurd h.1 (by decide)

/-- The parse of the Stage 2 template: literal text around exactly two slots,
`product_type` and `stage`. -/
theorem strategy_parse :
    parseTemplate strategy_description =
      [Seg.lit strategySegA, Seg.var "product_type", Seg.lit strategySegB,
       Seg.var "stage", Seg.lit strategySegC] := by
  unfold parseTemplate strategy_description
  simp only [String.data_append]
  rw [parseAux_lit_append _ _ _ noBrace_segA, List.append_nil]
  rw [parseAux_slot_cons _ _ _ (by rfl) (isEmpty_reverse_false _ segA_ne_nil)]
  rw [parseAux_lit_append _ _ _ noBrace_segB, List.append_nil]
  rw [parseAux_slot_cons _ _ _ (by rfl) (isEmpty_reverse_false _ segB_ne_nil)]
  rw [← List.append_nil strategySegC.data]
  rw [parseAux_lit_append _ _ _ noBrace_segC, List.append_nil, parseAux_nil_lit]
  rw [isEmpty_reverse_false _ segC_ne_nil]
  simp


/-- The composed Stage 2 instructions are the template's literal parts with
`product_type` and `stage` substituted in. -/
theorem stage2Instructions_eq (t p s : String) :
    stage2Instructions t p s =
      strategySegA ++ (p ++ (strategySegB ++ (s ++ (strategySegC ++ "")))) := by
  unfold stage2Instructions interpolateInputs
  rw [strategy_parse]
  have h1 : inputValue (pipelineInputs t p s) "product_type" = p := rfl
  have h2 : inputValue (pipelineInputs t p s) "stage" = s := rfl
  simp only [renderTemplate, h1, h2]

theorem noZ_segA : allChk (fun c => c.toNat != 90) strategySegA.data = true := by rfl

theorem noZ_segB : allChk (fun c => c.toNat != 90) strategySegB.data = true := by rfl

theorem noZ_segC1 : allChk (fun c => c.toNat != 90) strategySegC1.data = true := by rfl

theorem noZ_segC2 : allChk (fun c => c.toNat != 90) strategySegC2.data = true := by rfl

theorem noZ_segC3 : allChk (fun c => c.toNat != 90) strategySegC3.data = true := by rfl

theorem noZ_segC4 : allChk (fun c => c.toNat != 90) strategySegC4.data = true := by rfl

/-- The letter `Z` does not occur anywhere in the Stage 2 instructions
composed for `product_type = "SaaS"` and `stage = "Pre-revenue"`. -/
theorem noZ_composed (t : String) :
    ∀ c ∈ (stage2Instructions t "SaaS" "Pre-revenue").data,
      c.toNat ≠ 90 := by
  intro c hc
  rw [stage2Instructions_eq] at hc
  simp only [strategySegC, String.data_append, List.mem_append] at hc
  have hz : ∀ l : List Char, allChk (fun c => c.toNat != 90) l = true → c ∈ l → c.toNat ≠ 90 := by
    intro l hl hmem
    have := allChk_mem _ _ hl c hmem
    simpa using this
  rcases hc with h | h | h | h | (h | h | h | h) | h
  · exact hz _ noZ_segA h
  · exact hz _ (by decide) h
  · exact hz _ noZ_segB h
  · exact hz _ (by decide) h
  · exact hz _ noZ_segC1 h
  · exact hz _ noZ_segC2 h
  · exact hz _ noZ_segC3 h
  · exact hz _ noZ_segC4 h
  · exact absurd h (List.not_mem_nil c)


/-- C2, counterexample.  Run the pipeline with a backend whose Stage 1 result
normalizes to the text `Z`: the composed (templated) Stage 2 instructions do
not contain that Stage 1 output as substituted text — the strategy template
has no substitution slot for it. -/
theorem claim_C2_counterexample :
    extractOutput ⟨some "Z", none, "Z"⟩ = "Z" ∧
    ¬ ("Z".data <:+: (stage2Instructions "0123456789" "SaaS" "Pre-revenue").data) := by
  refine ⟨rfl, ?_⟩
  intro h
  have hmem : ('Z' : Char) ∈ "Z".data := by decide
  exact absurd (by decide : ('Z' : Char).toNat = 90)
    (noZ_composed "0123456789" 'Z' (h.subset hmem))

/-- C2, amended: Stage 2's composed (templated) instructions contain the
given `product_type` and `stage` as substituted text; the normalized Stage 1
output is not substituted into the template (the template has no slot for
it) and reaches Stage 2 only as the context the sequential process appends,
so it occurs in the full Stage 2 prompt. -/
theorem claim_C2 (t p s s1 : String) :
    (p.data <:+: (stage2Instructions t p s).data) ∧
    (s.data <:+: (stage2Instructions t p s).data) ∧
    (s1.data <:+: (stage2Prompt t p s s1).data) := by
  refine ⟨?_, ?_, ?_⟩
  · rw [stage2Instructions_eq]
    exact ⟨strategySegA.data, (strategySegB ++ (s ++ (strategySegC ++ ""))).data,
      by simp [String.data_append, List.append_assoc]⟩
  · rw [stage2Instructions_eq]
    exact ⟨(strategySegA ++ (p ++ strategySegB)).data, (strategySegC ++ "").data,
      by simp [String.data_append, List.append_assoc]⟩
  · exact ⟨(stage2Instructions t p s ++ "\n\nThis is the context you are working with:\n").data,
      [], by simp [stage2Prompt, String.data_append, List.append_assoc]⟩


/-! ### Shape lemmas for the pipeline run -/

/-- An invalid transcript fails before anything happens. -/
theorem run_invalid (env : Env) (backend : Backend) (t p s : String)
    (hval : t = "" ∨ (strip t).length < 10) :
    run_pricelens_pipeline env backend t p s =
      { events := []
        result := Except.error (PipelineError.validation
          "Transcript must be at least 10 characters long") } := by
  unfold run_pricelens_pipeline
  rw [if_pos hval]

/-- A configuration failure surfaces before any backend call. -/
theorem run_configError (env : Env) (backend : Backend) (t p s m : String)
    (hval : ¬(t = "" ∨ (strip t).length < 10))
    (hres : resolveConfig env = Except.error m) :
    run_pricelens_pipeline env backend t p s =
      { events := [], result := Except.error (PipelineError.configuration m) } := by
  unfold run_pricelens_pipeline
  rw [if_neg hval, hres]

/-- A Stage 1 exception propagates verbatim; Stage 2 is never called. -/
theorem run_stage1_error (env : Env) (backend : Backend) (t p s : String)
    (cfg : Config) (m : String)
    (hval : ¬(t = "" ∨ (strip t).length < 10))
    (hres : resolveConfig env = Except.ok cfg)
    (hb1 : backend 1 (stage1Prompt t p s) = Except.error m) :
    run_pricelens_pipeline env backend t p s =
      { events := [Event.crewBuilt cfg, Event.stageCall 1 (stage1Prompt t p s)]
        result := Except.error (PipelineError.stageFailure m) } := by
  unfold run_pricelens_pipeline kickoff
  rw [if_neg hval, hres, hb1]

/-- A Stage 2 exception propagates verbatim after both calls happened. -/
theorem run_stage2_error (env : Env) (backend : Backend) (t p s : String)
    (cfg : Config) (r1 : RawResult) (m : String)
    (hval : ¬(t = "" ∨ (strip t).length < 10))
    (hres : resolveConfig env = Except.ok cfg)
    (hb1 : backend 1 (stage1Prompt t p s) = Except.ok r1)
    (hb2 : backend 2 (stage2Prompt t p s (extractOutput r1)) = Except.error m) :
    run_pricelens_pipeline env backend t p s =
      { events := [Event.crewBuilt cfg, Event.stageCall 1 (stage1Prompt t p s),
                   Event.stageCall 2 (stage2Prompt t p s (extractOutput r1))]
        result := Except.error (PipelineError.stageFailure m) } := by
  unfold run_pricelens_pipeline kickoff
  rw [if_neg hval, hres, hb1]
  dsimp only
  rw [hb2]

/-- The fully successful run: both stages called in order, final output
extracted from Stage 2's raw result. -/
theorem run_success (env : Env) (backend : Backend) (t p s : String)
    (cfg : Config) (r1 r2 : RawResult)
    (hval : ¬(t = "" ∨ (strip t).length < 10))
    (hres : resolveConfig env = Except.ok cfg)
    (hb1 : backend 1 (stage1Prompt t p s) = Except.ok r1)
    (hb2 : backend 2 (stage2Prompt t p s (extractOutput r1)) = Except.ok r2) :
    run_pricelens_pipeline env backend t p s =
      { events := [Event.crewBuilt cfg, Event.stageCall 1 (stage1Prompt t p s),
                   Event.stageCall 2 (stage2Prompt t p s (extractOutput r1))]
        result := Except.ok (extractOutput r2) } := by
  unfold run_pricelens_pipeline kickoff
  rw [if_neg hval, hres, hb1]
  dsimp only
  rw [hb2]

/-- Inversion: a successful result can only come from the full success
shape. -/
theorem run_ok_inv (env : Env) (backend : Backend) (t p s b : String)
    (h : (run_pricelens_pipeline env backend t p s).result = Except.ok b) :
    ∃ cfg r1 r2, resolveConfig env = Except.ok cfg ∧
      backend 1 (stage1Prompt t p s) = Except.ok r1 ∧
      backend 2 (stage2Prompt t p s (extractOutput r1)) = Except.ok r2 ∧
      b = extractOutput r2 ∧
      (run_pricelens_pipeline env backend t p s).events =
        [Event.crewBuilt cfg, Event.stageCall 1 (stage1Prompt t p s),
         Event.stageCall 2 (stage2Prompt t p s (extractOutput r1))] := by
  by_cases hval : (t = "" ∨ (strip t).length < 10)
  · rw [run_invalid env backend t p s hval] at h
    cases h
  · cases hres : resolveConfig env with
    | error m =>
      rw [run_configError env backend t p s m hval hres] at h
      cases h
    | ok cfg =>
      cases hb1 : backend 1 (stage1Prompt t p s) with
      | error m =>
        rw [run_stage1_error env backend t p s cfg m hval hres hb1] at h
        cases h
      | ok r1 =>
        cases hb2 : backend 2 (stage2Prompt t p s (extractOutput r1)) with
        | error m =>
          rw [run_stage2_error env backend t p s cfg r1 m hval hres hb1 hb2] at h
          cases h
        | ok r2 =>
          rw [run_success env backend t p s cfg r1 r2 hval hres hb1 hb2] at h
          injection h with h
          refine ⟨cfg, r1, r2, rfl, rfl, hb2, h.symm, ?_⟩
          rw [run_success env backend t p s cfg r1 r2 hval hres hb1 hb2]


/-! ### Concrete backends used by witnesses and counterexamples -/

/-- A backend that always succeeds with a fixed textual result. -/
def stubBackend : Backend :=
  fun _ _ => Except.ok ⟨some "stub output", none, "stub output"⟩

/-- A backend whose Stage 1 call raises an exception. -/
def failingStage1Backend : Backend :=
  fun n _ =>
    if n = 1 then Except.error "BackendUnavailableError: connection refused"
    else Except.ok ⟨some "stub output", none, "stub output"⟩

/-! ### The claims -/

/-- C1: a transcript whose trimmed length is below 10 makes
`run_pricelens_pipeline` fail with the validation `ValueError` while the
event trace stays empty: no configuration resolution, no crew construction
and no backend call happens, so no backend cost is incurred. -/
theorem claim_C1 (env : Env) (backend : Backend) (t p s : String)
    (h : (strip t).length < 10) :
    run_pricelens_pipeline env backend t p s =
      { events := []
        result := Except.error (PipelineError.validation
          "Transcript must be at least 10 characters long") } :=
  run_invalid env backend t p s (Or.inr h)

/-- Witness for C1 at the concrete transcript `"short"`. -/
theorem claim_C1_witness :
    (strip "short").length < 10 ∧
    run_pricelens_pipeline ⟨some "k", none, none⟩ stubBackend "short" "SaaS" "Pre-revenue" =
      { events := []
        result := Except.error (PipelineError.validation
          "Transcript must be at least 10 characters long") } :=
  ⟨by decide, claim_C1 ⟨some "k", none, none⟩ stubBackend "short" "SaaS" "Pre-revenue" (by decide)⟩

/-- C5, counterexample: a result whose `raw` attribute is the empty string
while its `content` attribute carries text.  Extraction returns the empty
string — it does not return the non-empty `content` text, and it cannot
raise (no `NormalizationError` exists in the code). -/
theorem claim_C5_counterexample :
    extractOutput ⟨some "", some "hello", "CrewOutput object"⟩ = "" ∧
    ("hello" : String) ≠ "" := by
  exact ⟨rfl, by decide⟩

/-- C5, amended: result extraction never raises; it returns the `raw`
attribute when present, else the `content` attribute when present, else the
textual conversion of the whole result, and its output is empty exactly when
the attribute so selected is empty — even if a later attribute carries
text. -/
theorem claim_C5 (r : RawResult) :
    extractOutput r = "" ↔
      (r.raw = some "" ∨ (r.raw = none ∧ r.content = some "") ∨
        (r.raw = none ∧ r.content = none ∧ r.text = "")) := by
  rcases r with ⟨raw, content, text⟩
  cases raw with
  | some s => simp [extractOutput]
  | none =>
    cases content with
    | some s => simp [extractOutput]
    | none => simp [extractOutput]

/-- C6, counterexample: for the valid input transcript `"  0123456789  "`,
the context handed to the stages holds the stripped transcript
`"0123456789"`, not the caller's transcript. -/
theorem claim_C6_counterexample :
    10 ≤ (strip "  0123456789  ").length ∧
    (pipelineInputs "  0123456789  " "SaaS" "Pre-revenue").lookup "transcript" =
      some "0123456789" ∧
    ("0123456789" : String) ≠ "  0123456789  " := by
  refine ⟨by decide, by decide, by decide⟩

/-- C6, amended: the PipelineContext's transcript entry is the stripped
input transcript, `input.transcript.strip()`; it equals the caller's
transcript exactly when that transcript carries no leading or trailing
whitespace. -/
theorem claim_C6 (t p s : String) :
    (pipelineInputs t p s).lookup "transcript" = some (strip t) ∧
    (strip t = t →
      (pipelineInputs t p s).lookup "transcript" = some t) := by
  constructor
  · rfl
  · intro h
    rw [show (pipelineInputs t p s).lookup "transcript" = some (strip t) from rfl, h]

/-- Witness for C6 at a transcript without surrounding whitespace. -/
theorem claim_C6_witness :
    (pipelineInputs "0123456789" "SaaS" "Pre-revenue").lookup "transcript" =
      some "0123456789" :=
  (claim_C6 "0123456789" "SaaS" "Pre-revenue").2 (by decide)

/-- C4, counterexample: two environments that differ in every variable the
code reads still resolve to the same token limit, requests-per-minute cap,
iteration cap and per-stage timeout — these four tunables are fixed
constants in the code, not environment configuration. -/
theorem claim_C4_counterexample :
    (resolveConfig ⟨some "key-one", some "model-one", some "0.9"⟩).map
        (fun c => (c.max_tokens, c.max_rpm, c.max_iter, c.max_execution_time)) =
      Except.ok (4000, 10, 3, 300) ∧
    (resolveConfig ⟨some "key-two", some "model-two", some "1.7"⟩).map
        (fun c => (c.max_tokens, c.max_rpm, c.max_iter, c.max_execution_time)) =
      Except.ok (4000, 10, 3, 300) := by
  exact ⟨rfl, rfl⟩

/-- C4, amended: configuration resolution reads the credential, the model
identifier and the temperature from the process environment (the latter two
with defaults), while the max output tokens (4000), requests-per-minute cap
(10), per-stage iteration cap (3) and per-stage timeout (300 s) are fixed
in code. -/
theorem claim_C4 (env : Env) (c : Config)
    (h : resolveConfig env = Except.ok c) :
    c.model_name = env.OPENAI_MODEL_NAME.getD "gpt-4o-mini" ∧
    c.temperature = env.OPENAI_TEMPERATURE.getD "0.2" ∧
    c.max_tokens = 4000 ∧ c.max_rpm = 10 ∧ c.max_iter = 3 ∧
    c.max_execution_time = 300 ∧
    (∃ k, env.OPENAI_API_KEY = some k ∧ c.api_key = k) := by
  unfold resolveConfig at h
  cases henv : env.OPENAI_API_KEY with
  | none => rw [henv] at h; cases h
  | some k =>
    rw [henv] at h
    dsimp only at h
    by_cases hk : k = "" ∨ k = "your_openai_api_key_here"
    · rw [if_pos hk] at h; cases h
    · rw [if_neg hk] at h
      injection h with h2
      subst h2
      exact ⟨rfl, rfl, rfl, rfl, rfl, rfl, k, rfl, rfl⟩

/-- Witness for C4 at a fully populated environment. -/
theorem claim_C4_witness :
    (Config.mk "k" "m" "0.5" 4000 3 300 10).model_name =
      (Env.mk (some "k") (some "m") (some "0.5")).OPENAI_MODEL_NAME.getD "gpt-4o-mini" ∧
    (Config.mk "k" "m" "0.5" 4000 3 300 10).temperature =
      (Env.mk (some "k") (some "m") (some "0.5")).OPENAI_TEMPERATURE.getD "0.2" ∧
    (Config.mk "k" "m" "0.5" 4000 3 300 10).max_tokens = 4000 ∧
    (Config.mk "k" "m" "0.5" 4000 3 300 10).max_rpm = 10 ∧
    (Config.mk "k" "m" "0.5" 4000 3 300 10).max_iter = 3 ∧
    (Config.mk "k" "m" "0.5" 4000 3 300 10).max_execution_time = 300 ∧
    (∃ k, (Env.mk (some "k") (some "m") (some "0.5")).OPENAI_API_KEY = some k ∧
      (Config.mk "k" "m" "0.5" 4000 3 300 10).api_key = k) :=
  claim_C4 (Env.mk (some "k") (some "m") (some "0.5"))
    (Config.mk "k" "m" "0.5" 4000 3 300 10) rfl


/-- C7, counterexample: two runs in the same process under environments that
differ only in the model variable build their crews with different
configurations — the environment is re-read on every run, not once per
process lifetime. -/
theorem claim_C7_counterexample :
    (run_pricelens_pipeline ⟨some "k", some "model-a", none⟩ stubBackend
        "0123456789" "SaaS" "Pre-revenue").events.head? =
      some (Event.crewBuilt ⟨"k", "model-a", "0.2", 4000, 3, 300, 10⟩) ∧
    (run_pricelens_pipeline ⟨some "k", some "model-b", none⟩ stubBackend
        "0123456789" "SaaS" "Pre-revenue").events.head? =
      some (Event.crewBuilt ⟨"k", "model-b", "0.2", 4000, 3, 300, 10⟩) ∧
    (Config.mk "k" "model-a" "0.2" 4000 3 300 10) ≠
      (Config.mk "k" "model-b" "0.2" 4000 3 300 10) := by
  refine ⟨rfl, rfl, by decide⟩

/-- C7, amended: the configuration is resolved from the environment on every
pipeline run — each valid run begins by building a crew from whatever the
environment holds at that moment, so an environment change between runs
takes effect without a process restart. -/
theorem claim_C7 (env : Env) (backend : Backend) (t p s : String) (cfg : Config)
    (hres : resolveConfig env = Except.ok cfg)
    (hval : ¬(t = "" ∨ (strip t).length < 10)) :
    (run_pricelens_pipeline env backend t p s).events.head? =
      some (Event.crewBuilt cfg) := by
  cases hb1 : backend 1 (stage1Prompt t p s) with
  | error m =>
    rw [run_stage1_error env backend t p s cfg m hval hres hb1]
    rfl
  | ok r1 =>
    cases hb2 : backend 2 (stage2Prompt t p s (extractOutput r1)) with
    | error m =>
      rw [run_stage2_error env backend t p s cfg r1 m hval hres hb1 hb2]
      rfl
    | ok r2 =>
      rw [run_success env backend t p s cfg r1 r2 hval hres hb1 hb2]
      rfl

/-- Witness for C7 at a concrete environment and backend. -/
theorem claim_C7_witness :
    (run_pricelens_pipeline ⟨some "k", none, none⟩ stubBackend
        "0123456789" "SaaS" "Pre-revenue").events.head? =
      some (Event.crewBuilt ⟨"k", "gpt-4o-mini", "0.2", 4000, 3, 300, 10⟩) :=
  claim_C7 ⟨some "k", none, none⟩ stubBackend "0123456789" "SaaS" "Pre-revenue"
    ⟨"k", "gpt-4o-mini", "0.2", 4000, 3, 300, 10⟩ rfl (by decide)

/-- C8: stages execute strictly in order.  For every valid input whose
configuration resolves, Stage 1's backend call appears in the trace; and
whenever a Stage 2 call appears in the trace, Stage 1 was called before it
and had produced a successful result. -/
theorem claim_C8 :
    (∀ env backend t p s cfg, resolveConfig env = Except.ok cfg →
      ¬(t = "" ∨ (strip t).length < 10) →
      Event.stageCall 1 (stage1Prompt t p s) ∈
        (run_pricelens_pipeline env backend t p s).events) ∧
    (∀ env backend t p s p2,
      Event.stageCall 2 p2 ∈ (run_pricelens_pipeline env backend t p s).events →
      ∃ cfg r1, resolveConfig env = Except.ok cfg ∧
        backend 1 (stage1Prompt t p s) = Except.ok r1 ∧
        (run_pricelens_pipeline env backend t p s).events =
          [Event.crewBuilt cfg, Event.stageCall 1 (stage1Prompt t p s),
           Event.stageCall 2 p2]) := by
  constructor
  · intro env backend t p s cfg hres hval
    cases hb1 : backend 1 (stage1Prompt t p s) with
    | error m =>
      rw [run_stage1_error env backend t p s cfg m hval hres hb1]
      exact List.mem_cons_of_mem _ (List.mem_cons_self _ _)
    | ok r1 =>
      cases hb2 : backend 2 (stage2Prompt t p s (extractOutput r1)) with
      | error m =>
        rw [run_stage2_error env backend t p s cfg r1 m hval hres hb1 hb2]
        exact List.mem_cons_of_mem _ (List.mem_cons_self _ _)
      | ok r2 =>
        rw [run_success env backend t p s cfg r1 r2 hval hres hb1 hb2]
        exact List.mem_cons_of_mem _ (List.mem_cons_self _ _)
  · intro env backend t p s p2 h
    by_cases hval : (t = "" ∨ (strip t).length < 10)
    · rw [run_invalid env backend t p s hval] at h
      exact absurd h (List.not_mem_nil _)
    · cases hres : resolveConfig env with
      | error m =>
        rw [run_configError env backend t p s m hval hres] at h
        exact absurd h (List.not_mem_nil _)
      | ok cfg =>
        cases hb1 : backend 1 (stage1Prompt t p s) with
        | error m =>
          rw [run_stage1_error env backend t p s cfg m hval hres hb1] at h
          simp at h
        | ok r1 =>
          cases hb2 : backend 2 (stage2Prompt t p s (extractOutput r1)) with
          | error m =>
            rw [run_stage2_error env backend t p s cfg r1 m hval hres hb1 hb2] at h
            simp at h
            subst h
            refine ⟨cfg, r1, rfl, rfl, ?_⟩
            rw [run_stage2_error env backend t p s cfg r1 m hval hres hb1 hb2]
          | ok r2 =>
            rw [run_success env backend t p s cfg r1 r2 hval hres hb1 hb2] at h
            simp at h
            subst h
            refine ⟨cfg, r1, rfl, rfl, ?_⟩
            rw [run_success env backend t p s cfg r1 r2 hval hres hb1 hb2]

/-- Witness for C8 at a concrete environment, backend and input. -/
theorem claim_C8_witness :
    Event.stageCall 1 (stage1Prompt "0123456789" "SaaS" "Pre-revenue") ∈
      (run_pricelens_pipeline ⟨some "k", none, none⟩ stubBackend
        "0123456789" "SaaS" "Pre-revenue").events :=
  claim_C8.1 ⟨some "k", none, none⟩ stubBackend "0123456789" "SaaS" "Pre-revenue"
    ⟨"k", "gpt-4o-mini", "0.2", 4000, 3, 300, 10⟩ rfl (by decide)


/-- C9: on any stage failure the pipeline propagates the first failing
exception verbatim and halts — a Stage 1 failure means Stage 2 is never
invoked, a Stage 2 failure propagates with both calls made, and a
successful result can only arise when both stages succeeded, so no partial
report is ever returned. -/
theorem claim_C9 :
    (∀ env backend t p s cfg m, resolveConfig env = Except.ok cfg →
      ¬(t = "" ∨ (strip t).length < 10) →
      backend 1 (stage1Prompt t p s) = Except.error m →
      (run_pricelens_pipeline env backend t p s).result =
        Except.error (PipelineError.stageFailure m) ∧
      ∀ p2, Event.stageCall 2 p2 ∉
        (run_pricelens_pipeline env backend t p s).events) ∧
    (∀ env backend t p s cfg r1 m, resolveConfig env = Except.ok cfg →
      ¬(t = "" ∨ (strip t).length < 10) →
      backend 1 (stage1Prompt t p s) = Except.ok r1 →
      backend 2 (stage2Prompt t p s (extractOutput r1)) = Except.error m →
      (run_pricelens_pipeline env backend t p s).result =
        Except.error (PipelineError.stageFailure m)) ∧
    (∀ env backend t p s b,
      (run_pricelens_pipeline env backend t p s).result = Except.ok b →
      ∃ cfg r1 r2, resolveConfig env = Except.ok cfg ∧
        backend 1 (stage1Prompt t p s) = Except.ok r1 ∧
        backend 2 (stage2Prompt t p s (extractOutput r1)) = Except.ok r2 ∧
        b = extractOutput r2) := by
  refine ⟨?_, ?_, ?_⟩
  · intro env backend t p s cfg m hres hval hb1
    rw [run_stage1_error env backend t p s cfg m hval hres hb1]
    constructor
    · rfl
    · intro p2 hmem
      simp at hmem
  · intro env backend t p s cfg r1 m hres hval hb1 hb2
    rw [run_stage2_error env backend t p s cfg r1 m hval hres hb1 hb2]
  · intro env backend t p s b h
    obtain ⟨cfg, r1, r2, hres, hb1, hb2, hb, _⟩ :=
      run_ok_inv env backend t p s b h
    exact ⟨cfg, r1, r2, hres, hb1, hb2, hb⟩

/-- Witness for C9: a backend whose Stage 1 call raises — the exception
message comes back verbatim and no Stage 2 call appears in the trace. -/
theorem claim_C9_witness :
    (run_pricelens_pipeline ⟨some "k", none, none⟩ failingStage1Backend
        "0123456789" "SaaS" "Pre-revenue").result =
      Except.error (PipelineError.stageFailure
        "BackendUnavailableError: connection refused") ∧
    ∀ p2, Event.stageCall 2 p2 ∉
      (run_pricelens_pipeline ⟨some "k", none, none⟩ failingStage1Backend
        "0123456789" "SaaS" "Pre-revenue").events :=
  claim_C9.1 ⟨some "k", none, none⟩ failingStage1Backend
    "0123456789" "SaaS" "Pre-revenue"
    ⟨"k", "gpt-4o-mini", "0.2", 4000, 3, 300, 10⟩
    "BackendUnavailableError: connection refused" rfl (by decide) rfl

/-- C10: surrounding whitespace never influences what the backend sees —
two transcripts with the same stripped text give rise to identical runs
(identical prompts, events and result), because the transcript is stripped
before being placed into the kickoff inputs. -/
theorem claim_C10 (env : Env) (backend : Backend) (t1 t2 p s : String)
    (htrim : strip t1 = strip t2) (hval : 10 ≤ (strip t1).length) :
    run_pricelens_pipeline env backend t1 p s =
      run_pricelens_pipeline env backend t2 p s := by
  have h1 : t1 ≠ "" := by
    intro h
    rw [h] at hval
    exact absurd hval (by decide)
  have h2 : t2 ≠ "" := by
    intro h
    rw [h] at htrim
    rw [htrim] at hval
    exact absurd hval (by decide)
  have hv1 : ¬(t1 = "" ∨ (strip t1).length < 10) := by
    rw [not_or]
    exact ⟨h1, by omega⟩
  have hv2 : ¬(t2 = "" ∨ (strip t2).length < 10) := by
    rw [not_or]
    refine ⟨h2, ?_⟩
    rw [← htrim]
    omega
  have hk : kickoff backend t1 p s = kickoff backend t2 p s := by
    unfold kickoff stage1Prompt stage2Prompt stage2Instructions pipelineInputs
    rw [htrim]
  unfold run_pricelens_pipeline
  rw [if_neg hv1, if_neg hv2, hk]

/-- Witness for C10 at two transcripts differing only in surrounding
whitespace. -/
theorem claim_C10_witness :
    strip "  0123456789" = strip "0123456789  " ∧
    10 ≤ (strip "  0123456789").length ∧
    run_pricelens_pipeline ⟨some "k", none, none⟩ stubBackend
        "  0123456789" "SaaS" "Pre-revenue" =
      run_pricelens_pipeline ⟨some "k", none, none⟩ stubBackend
        "0123456789  " "SaaS" "Pre-revenue" :=
  ⟨by decide, by decide,
    claim_C10 ⟨some "k", none, none⟩ stubBackend "  0123456789" "0123456789  "
      "SaaS" "Pre-revenue" (by decide) (by decide)⟩


/-- C3, counterexample: the caller posts the transcript
`"  0123456789  "` (14 characters).  The field validator strips it, the
pipeline runs on the stripped text, and the response reports
`transcript_length = 10` — not the 14 characters the caller supplied. -/
theorem claim_C3_counterexample :
    parseRequest "  0123456789  " "SaaS" "Pre-revenue" =
      Except.ok ⟨"0123456789", "SaaS", "Pre-revenue"⟩ ∧
    (analyze_transcript ⟨some "k", none, none⟩ stubBackend
        ⟨"0123456789", "SaaS", "Pre-revenue"⟩).map
      (fun resp => resp.transcript_length) = Except.ok 10 ∧
    ("  0123456789  " : String).length = 14 ∧ (10 : Nat) ≠ 14 := by
  refine ⟨rfl, rfl, by decide, by decide⟩

/-- C3, amended: on success, the response body equals the extraction of
Stage 2's raw result, and `transcript_length` is the character count of the
validated, stripped transcript — which matches the string the caller
supplied only when that string has no surrounding whitespace. -/
theorem claim_C3 (env : Env) (backend : Backend) (t p s : String)
    (req : AnalysisRequest) (resp : AnalysisResponse)
    (hreq : parseRequest t p s = Except.ok req)
    (hresp : analyze_transcript env backend req = Except.ok resp) :
    resp.transcript_length = (strip t).length ∧
    ∃ p2 r2, backend 2 p2 = Except.ok r2 ∧ resp.result = extractOutput r2 := by
  unfold parseRequest validate_transcript at hreq
  by_cases hlen : t.length < 10
  · rw [if_pos hlen] at hreq
    cases hreq
  · rw [if_neg hlen] at hreq
    by_cases hslen : (strip t).length < 10
    · rw [if_pos hslen] at hreq
      cases hreq
    · rw [if_neg hslen] at hreq
      dsimp only at hreq
      injection hreq with hreq
      subst hreq
      unfold analyze_transcript at hresp
      dsimp only at hresp
      cases hrun : (run_pricelens_pipeline env backend (strip t) p s).result with
      | error e =>
        rw [hrun] at hresp
        cases e with
        | validation m => cases hresp
        | configuration m => cases hresp
        | stageFailure m => cases hresp
      | ok out =>
        rw [hrun] at hresp
        dsimp only at hresp
        injection hresp with hresp
        subst hresp
        obtain ⟨cfg, r1, r2, hres2, hb1, hb2, hbv, hevs⟩ :=
          run_ok_inv env backend (strip t) p s out hrun
        exact ⟨rfl, stage2Prompt (strip t) p s (extractOutput r1), r2, hb2, hbv⟩

/-- Witness for C3: the stubbed end-to-end run on `"  0123456789  "`. -/
theorem claim_C3_witness :
    (AnalysisResponse.mk "stub output" "SaaS" "Pre-revenue" 10).transcript_length =
      (strip "  0123456789  ").length ∧
    ∃ p2 r2, stubBackend 2 p2 = Except.ok r2 ∧
      (AnalysisResponse.mk "stub output" "SaaS" "Pre-revenue" 10).result =
        extractOutput r2 :=
  claim_C3 ⟨some "k", none, none⟩ stubBackend "  0123456789  " "SaaS" "Pre-revenue"
    ⟨"0123456789", "SaaS", "Pre-revenue"⟩
    ⟨"stub output", "SaaS", "Pre-revenue", 10⟩ rfl rfl

end PriceLens
